import Mathlib

/-!
# Verification development for `matlib.h`

`src/src/matlib.h` is a foreign-function header: type aliases, one element
type enumeration, object-like `#define` constants, one transpose
enumeration and the prototypes of eight functions.

* Enumerations are embedded as inductive types together with the integer
  value the header assigns to every enumerator.
* An object-like `#define` is embedded as what the preprocessor stores for
  it: its name and its replacement list, a list of tokens.  `constValue`
  reads a replacement list as an integer constant.
* The numeric kernels (`sum`, `add`) are only declared by the header; they
  are modelled from the specification, generically in the element type.
* `float` and `double` are embedded as IEEE-754 binary32 and binary64
  values with round-to-nearest-even addition and multiplication.
-/

namespace Matlib

/-! ## Element type tags (`matlib.h`, lines 19-38) -/

/-- The enumeration `enum rindow_matlib_dtype`; one constructor per
enumerator, in declaration order. -/
inductive rindow_matlib_dtype
  | rindow_matlib_dtype_unknown
  | rindow_matlib_dtype_bool
  | rindow_matlib_dtype_int8
  | rindow_matlib_dtype_int16
  | rindow_matlib_dtype_int32
  | rindow_matlib_dtype_int64
  | rindow_matlib_dtype_uint8
  | rindow_matlib_dtype_uint16
  | rindow_matlib_dtype_uint32
  | rindow_matlib_dtype_uint64
  | rindow_matlib_dtype_float8
  | rindow_matlib_dtype_float16
  | rindow_matlib_dtype_float32
  | rindow_matlib_dtype_float64
  | rindow_matlib_dtype_complex8
  | rindow_matlib_dtype_complex16
  | rindow_matlib_dtype_complex32
  | rindow_matlib_dtype_complex64
  deriving DecidableEq, Repr

namespace rindow_matlib_dtype

/-- The integer the header assigns to each enumerator (`name = value`). -/
def toInt : rindow_matlib_dtype → Int
  | rindow_matlib_dtype_unknown   => 0
  | rindow_matlib_dtype_bool      => 1
  | rindow_matlib_dtype_int8      => 2
  | rindow_matlib_dtype_int16     => 3
  | rindow_matlib_dtype_int32     => 4
  | rindow_matlib_dtype_int64     => 5
  | rindow_matlib_dtype_uint8     => 6
  | rindow_matlib_dtype_uint16    => 7
  | rindow_matlib_dtype_uint32    => 8
  | rindow_matlib_dtype_uint64    => 9
  | rindow_matlib_dtype_float8    => 10
  | rindow_matlib_dtype_float16   => 11
  | rindow_matlib_dtype_float32   => 12
  | rindow_matlib_dtype_float64   => 13
  | rindow_matlib_dtype_complex8  => 14
  | rindow_matlib_dtype_complex16 => 15
  | rindow_matlib_dtype_complex32 => 16
  | rindow_matlib_dtype_complex64 => 17

/-- Every enumerator of the enumeration, in declaration order. -/
def enumerators : List rindow_matlib_dtype :=
  [ rindow_matlib_dtype_unknown, rindow_matlib_dtype_bool,
    rindow_matlib_dtype_int8, rindow_matlib_dtype_int16,
    rindow_matlib_dtype_int32, rindow_matlib_dtype_int64,
    rindow_matlib_dtype_uint8, rindow_matlib_dtype_uint16,
    rindow_matlib_dtype_uint32, rindow_matlib_dtype_uint64,
    rindow_matlib_dtype_float8, rindow_matlib_dtype_float16,
    rindow_matlib_dtype_float32, rindow_matlib_dtype_float64,
    rindow_matlib_dtype_complex8, rindow_matlib_dtype_complex16,
    rindow_matlib_dtype_complex32, rindow_matlib_dtype_complex64 ]

/-- Decoding of an integer: the enumerator carrying that value, if any
(what a C conversion of the integer to the enumeration type denotes). -/
def ofInt (v : Int) : Option rindow_matlib_dtype :=
  enumerators.find? (fun t => decide (t.toInt = v))

end rindow_matlib_dtype

/-! ## Object-like `#define` constants -/

/-- The preprocessing tokens that occur in the replacement lists of the
header: a decimal literal, the minus sign, the semicolon and a string
literal. -/
inductive Tok
  | num (v : Nat)
  | minus
  | semi
  | str (s : String)
  deriving DecidableEq, Repr

/-- One `#define NAME replacement-list` line of the header. -/
structure Define where
  name : String
  body : List Tok
  deriving DecidableEq, Repr

/-- The value of a replacement list read as an integer constant: a decimal
literal, or a minus sign followed by a decimal literal.  Any other token
sequence is not an integer constant. -/
def constValue : List Tok → Option Int
  | [Tok.num v] => some (Int.ofNat v)
  | [Tok.minus, Tok.num v] => some (-(Int.ofNat v))
  | _ => none

/-- Line 1: `#define FFI_SCOPE "Rindow\\Matlib\\FFI"`. -/
def FFI_SCOPE : Define := ⟨"FFI_SCOPE", [Tok.str "Rindow\\\\Matlib\\\\FFI"]⟩

/-- Line 46: `#define MATLIB_SEQUENTIAL  0`. -/
def MATLIB_SEQUENTIAL : Define := ⟨"MATLIB_SEQUENTIAL", [Tok.num 0]⟩
/-- Line 48: `#define MATLIB_THREAD  1`. -/
def MATLIB_THREAD : Define := ⟨"MATLIB_THREAD", [Tok.num 1]⟩
/-- Line 50: `#define MATLIB_OPENMP 2`. -/
def MATLIB_OPENMP : Define := ⟨"MATLIB_OPENMP", [Tok.num 2]⟩

/-- Line 55: `#define RINDOW_MATLIB_SUCCESS                 0`. -/
def RINDOW_MATLIB_SUCCESS : Define := ⟨"RINDOW_MATLIB_SUCCESS", [Tok.num 0]⟩
/-- Line 56: `#define RINDOW_MATLIB_E_MEM_ALLOC_FAILURE     -101`. -/
def RINDOW_MATLIB_E_MEM_ALLOC_FAILURE : Define :=
  ⟨"RINDOW_MATLIB_E_MEM_ALLOC_FAILURE", [Tok.minus, Tok.num 101]⟩
/-- Line 57: `#define RINDOW_MATLIB_E_PERM_OUT_OF_RANGE     -102`. -/
def RINDOW_MATLIB_E_PERM_OUT_OF_RANGE : Define :=
  ⟨"RINDOW_MATLIB_E_PERM_OUT_OF_RANGE", [Tok.minus, Tok.num 102]⟩
/-- Line 58: `#define RINDOW_MATLIB_E_DUP_AXIS              -103`. -/
def RINDOW_MATLIB_E_DUP_AXIS : Define :=
  ⟨"RINDOW_MATLIB_E_DUP_AXIS", [Tok.minus, Tok.num 103]⟩
/-- Line 59: `#define RINDOW_MATLIB_E_UNSUPPORTED_DATA_TYPE -104`. -/
def RINDOW_MATLIB_E_UNSUPPORTED_DATA_TYPE : Define :=
  ⟨"RINDOW_MATLIB_E_UNSUPPORTED_DATA_TYPE", [Tok.minus, Tok.num 104]⟩
/-- Line 60: `#define RINDOW_MATLIB_E_UNMATCH_IMAGE_BUFFER_SIZE -105`. -/
def RINDOW_MATLIB_E_UNMATCH_IMAGE_BUFFER_SIZE : Define :=
  ⟨"RINDOW_MATLIB_E_UNMATCH_IMAGE_BUFFER_SIZE", [Tok.minus, Tok.num 105]⟩
/-- Line 61: `#define RINDOW_MATLIB_E_UNMATCH_COLS_BUFFER_SIZE -106`. -/
def RINDOW_MATLIB_E_UNMATCH_COLS_BUFFER_SIZE : Define :=
  ⟨"RINDOW_MATLIB_E_UNMATCH_COLS_BUFFER_SIZE", [Tok.minus, Tok.num 106]⟩
/-- Line 62: `#define RINDOW_MATLIB_E_INVALID_SHAPE_OR_PARAM -107`. -/
def RINDOW_MATLIB_E_INVALID_SHAPE_OR_PARAM : Define :=
  ⟨"RINDOW_MATLIB_E_INVALID_SHAPE_OR_PARAM", [Tok.minus, Tok.num 107]⟩
/-- Line 63: `#define RINDOW_MATLIB_E_IMAGES_OUT_OF_RANGE   -108`. -/
def RINDOW_MATLIB_E_IMAGES_OUT_OF_RANGE : Define :=
  ⟨"RINDOW_MATLIB_E_IMAGES_OUT_OF_RANGE", [Tok.minus, Tok.num 108]⟩
/-- Line 64: `#define RINDOW_MATLIB_E_COLS_OUT_OF_RANGE     -109`. -/
def RINDOW_MATLIB_E_COLS_OUT_OF_RANGE : Define :=
  ⟨"RINDOW_MATLIB_E_COLS_OUT_OF_RANGE", [Tok.minus, Tok.num 109]⟩

/-- Line 67: `#define RINDOW_MATLIB_SEQUENTIAL 0;` (the replacement list
ends with a semicolon). -/
def RINDOW_MATLIB_SEQUENTIAL : Define :=
  ⟨"RINDOW_MATLIB_SEQUENTIAL", [Tok.num 0, Tok.semi]⟩
/-- Line 69: `#define RINDOW_MATLIB_THREAD     1;`. -/
def RINDOW_MATLIB_THREAD : Define :=
  ⟨"RINDOW_MATLIB_THREAD", [Tok.num 1, Tok.semi]⟩
/-- Line 71: `#define RINDOW_MATLIB_OPENMP     2;`. -/
def RINDOW_MATLIB_OPENMP : Define :=
  ⟨"RINDOW_MATLIB_OPENMP", [Tok.num 2, Tok.semi]⟩

/-- Every active `#define` line of the header, in source order (the
commented-out lines 2, 52 and 73-76 define nothing). -/
def defines : List Define :=
  [ FFI_SCOPE,
    MATLIB_SEQUENTIAL, MATLIB_THREAD, MATLIB_OPENMP,
    RINDOW_MATLIB_SUCCESS,
    RINDOW_MATLIB_E_MEM_ALLOC_FAILURE,
    RINDOW_MATLIB_E_PERM_OUT_OF_RANGE,
    RINDOW_MATLIB_E_DUP_AXIS,
    RINDOW_MATLIB_E_UNSUPPORTED_DATA_TYPE,
    RINDOW_MATLIB_E_UNMATCH_IMAGE_BUFFER_SIZE,
    RINDOW_MATLIB_E_UNMATCH_COLS_BUFFER_SIZE,
    RINDOW_MATLIB_E_INVALID_SHAPE_OR_PARAM,
    RINDOW_MATLIB_E_IMAGES_OUT_OF_RANGE,
    RINDOW_MATLIB_E_COLS_OUT_OF_RANGE,
    RINDOW_MATLIB_SEQUENTIAL, RINDOW_MATLIB_THREAD, RINDOW_MATLIB_OPENMP ]

/-- Whether the character sequence `p` occurs inside `s`. -/
def occursIn (p : List Char) : List Char → Bool
  | [] => p.isEmpty
  | c :: cs => p.isPrefixOf (c :: cs) || occursIn p cs

/-- The declared error codes: the `#define`s named `RINDOW_MATLIB_E_*`. -/
def errorDefines : List Define :=
  defines.filter (fun d => "RINDOW_MATLIB_E_".toList.isPrefixOf d.name.toList)

/-- The integer values of the declared error codes, in source order. -/
def errorCodes : List Int :=
  errorDefines.filterMap (fun d => constValue d.body)

/-- The status codes of the header: the success code followed by the
declared error codes. -/
def statusCodes : List Int :=
  (constValue RINDOW_MATLIB_SUCCESS.body).toList ++ errorCodes

/-- An error code concerns image/column buffers when its name mentions
`IMAGE` (which also covers `IMAGES`) or `COLS`. -/
def concernsImageOrCols (d : Define) : Bool :=
  occursIn "IMAGE".toList d.name.toList || occursIn "COLS".toList d.name.toList

/-! ## Transpose modes (`matlib.h`, lines 77-82) -/

/-- The enumeration `enum RINDOW_MATLIB_TRANSPOSE`, with the enumerator
names of the header. -/
inductive RINDOW_MATLIB_TRANSPOSE
  | RINDOW_MATLIB_NO_TRANS
  | RINDOW_MATLIB_TRANS
  | RINDOW_MATLIB_CONJ_TRANSTrans
  | RINDOW_MATLIB_CONJ_NO_TRANSNoTrans
  deriving DecidableEq, Repr

namespace RINDOW_MATLIB_TRANSPOSE

/-- The integer the header assigns to each enumerator. -/
def toInt : RINDOW_MATLIB_TRANSPOSE → Int
  | RINDOW_MATLIB_NO_TRANS => 111
  | RINDOW_MATLIB_TRANS => 112
  | RINDOW_MATLIB_CONJ_TRANSTrans => 113
  | RINDOW_MATLIB_CONJ_NO_TRANSNoTrans => 114

/-- Every enumerator, in declaration order. -/
def enumerators : List RINDOW_MATLIB_TRANSPOSE :=
  [ RINDOW_MATLIB_NO_TRANS, RINDOW_MATLIB_TRANS,
    RINDOW_MATLIB_CONJ_TRANSTrans, RINDOW_MATLIB_CONJ_NO_TRANSNoTrans ]

/-- Decoding of an integer into a transpose mode, if it is one. -/
def ofInt (v : Int) : Option RINDOW_MATLIB_TRANSPOSE :=
  enumerators.find? (fun t => decide (t.toInt = v))

end RINDOW_MATLIB_TRANSPOSE

/-! ## Numeric kernels (`matlib.h`, lines 89-92)

The header only declares the kernels.  A buffer is a map from element
offsets (relative to the pointer the caller passes) to elements.  The
kernels are generic in the element type `α`: exact arithmetic (integers,
rationals) and the IEEE-754 formats below are instances. -/

section Kernels

variable {α : Type}

/-- Modelled from the spec: the accumulation loop of the `sum` kernels, whose
bodies the header does not contain.  `cnt` more samples are read, the next
one at offset `off`, each step advancing the offset by `incX`. -/
def sumLoop [Add α] (x : Int → α) (incX : Int) : Nat → Int → α → α
  | 0, _, acc => acc
  | cnt + 1, off, acc => sumLoop x incX cnt (off + incX) (acc + x off)

/-- Modelled from the spec: the body of `rindow_matlib_s_sum`, which the
header only declares.  It computes "the sum of the `n` elements accessed at
`0, incX, 2*incX, ...`", starting from the additive identity; a count
`n <= 0` reads nothing. -/
def rindow_matlib_s_sum [Zero α] [Add α] (n : Int) (x : Int → α) (incX : Int) : α :=
  sumLoop x incX n.toNat 0 0

/-- Modelled from the spec: the body of `rindow_matlib_d_sum`, which the
header only declares; the same reduction as `rindow_matlib_s_sum` on a
64-bit float buffer. -/
def rindow_matlib_d_sum [Zero α] [Add α] (n : Int) (x : Int → α) (incX : Int) : α :=
  sumLoop x incX n.toNat 0 0

/-- Modelled from the spec: one row of the broadcast-add of the `add`
kernels, whose bodies the header does not contain:
`a[base + j] += f j` for `j = 0 .. cols-1`. -/
def addRow [Add α] (f : Nat → α) (base : Int) (cols : Nat) (a : Int → α) : Int → α :=
  (List.range cols).foldl
    (fun acc (j : Nat) => Function.update acc (base + (j : Int)) (acc (base + (j : Int)) + f j)) a

/-- Modelled from the spec: the in-place update loop of the `add` kernels,
whose bodies the header does not contain, over a `rows` x `cols` matrix
stored row by row with leading dimension `ldA`: `a[i*ldA + j] += f i j`. -/
def addLoop [Add α] (f : Nat → Nat → α) (ldA : Int) (rows cols : Nat) (a : Int → α) :
    Int → α :=
  (List.range rows).foldl (fun acc (i : Nat) => addRow (f i) ((i : Int) * ldA) cols acc) a

/-- Modelled from the spec: the body of `rindow_matlib_s_add`, which the
header only declares.  It computes `a := a + alpha * x` broadcast across the
`m` x `n` matrix `a`: "in no-transpose mode `x` (length `n`) is added to
every row of `a`; in transpose mode `x` (length `m`) is added to every
column"; "for real types conjugate modes are equivalent to their
non-conjugate counterparts".  The result is the buffer `a` after the call.
The spec gives no behaviour for a `trans` that is not a transpose mode; the
model leaves `a` as it is there. -/
def rindow_matlib_s_add [Add α] [Mul α] (trans m n : Int) (alpha : α) (x : Int → α)
    (incX : Int) (a : Int → α) (ldA : Int) : Int → α :=
  match RINDOW_MATLIB_TRANSPOSE.ofInt trans with
  | some RINDOW_MATLIB_TRANSPOSE.RINDOW_MATLIB_NO_TRANS
  | some RINDOW_MATLIB_TRANSPOSE.RINDOW_MATLIB_CONJ_NO_TRANSNoTrans =>
      addLoop (fun _ j => alpha * x ((j : Int) * incX)) ldA m.toNat n.toNat a
  | some RINDOW_MATLIB_TRANSPOSE.RINDOW_MATLIB_TRANS
  | some RINDOW_MATLIB_TRANSPOSE.RINDOW_MATLIB_CONJ_TRANSTrans =>
      addLoop (fun i _ => alpha * x ((i : Int) * incX)) ldA m.toNat n.toNat a
  | none => a

/-- Modelled from the spec: the body of `rindow_matlib_d_add`, which the
header only declares; the same broadcast-add as `rindow_matlib_s_add` on
64-bit float buffers. -/
def rindow_matlib_d_add [Add α] [Mul α] (trans m n : Int) (alpha : α) (x : Int → α)
    (incX : Int) (a : Int → α) (ldA : Int) : Int → α :=
  match RINDOW_MATLIB_TRANSPOSE.ofInt trans with
  | some RINDOW_MATLIB_TRANSPOSE.RINDOW_MATLIB_NO_TRANS
  | some RINDOW_MATLIB_TRANSPOSE.RINDOW_MATLIB_CONJ_NO_TRANSNoTrans =>
      addLoop (fun _ j => alpha * x ((j : Int) * incX)) ldA m.toNat n.toNat a
  | some RINDOW_MATLIB_TRANSPOSE.RINDOW_MATLIB_TRANS
  | some RINDOW_MATLIB_TRANSPOSE.RINDOW_MATLIB_CONJ_TRANSTrans =>
      addLoop (fun i _ => alpha * x ((i : Int) * incX)) ldA m.toNat n.toNat a
  | none => a

/-- A buffer holding the elements of `l` at offsets `0, 1, ...` (and `0`
elsewhere). -/
def bufferOf (l : List Int) : Int → Int :=
  fun p => if 0 ≤ p then l.getD p.toNat 0 else 0

end Kernels

/-! ## IEEE-754 binary floating point (`float`, `double`)

The element types of the kernels are `float` and `double` (`matlib.h`,
lines 89-92), for which the specification prescribes IEEE semantics ("IEEE
propagation rules" for NaN and Inf).  They are embedded as the IEEE-754
binary32 and binary64 formats: a finite value is
`(-1)^neg * m * 2^q` with an integral significand `m`, zero is signed,
there is one NaN (payloads are not represented), and arithmetic rounds to
nearest, ties to even. -/

/-- The number of binary digits of `n`, computed with `fuel` halvings. -/
def bitLengthAux : Nat → Nat → Nat
  | 0, _ => 0
  | fuel + 1, n => if n = 0 then 0 else bitLengthAux fuel (n / 2) + 1

/-- The number of binary digits of `n` (`0` for `n = 0`). -/
def bitLength (n : Nat) : Nat := bitLengthAux n n

/-- A binary floating-point format: `prec` significand bits (the hidden bit
included) and the largest exponent `emax`. -/
structure FloatFormat where
  prec : Nat
  emax : Int
  deriving DecidableEq, Repr

/-- The exponent of the last significand bit of subnormal numbers
(`-149` for binary32, `-1074` for binary64). -/
def FloatFormat.qmin (f : FloatFormat) : Int := 2 - f.emax - (f.prec : Int)

/-- The exponent of the last significand bit of the largest finite
numbers (`104` for binary32, `971` for binary64). -/
def FloatFormat.qmax (f : FloatFormat) : Int := f.emax + 1 - (f.prec : Int)

/-- The values of the format `f`: NaN, the two infinities, and the finite
values `(-1)^neg * m * 2^q`. -/
inductive IEEE (f : FloatFormat)
  | nan
  | inf (neg : Bool)
  | fin (neg : Bool) (m : Nat) (q : Int)
  deriving DecidableEq, Repr

namespace IEEE

variable {f : FloatFormat}

/-- Rounding of the exact value `(-1)^neg * m * 2^q` to the format, to
nearest with ties to even: the significand is brought to `prec` digits (or
to the subnormal exponent `qmin`), a result beyond the largest finite number
becomes an infinity, and a zero keeps its sign. -/
def round (f : FloatFormat) (neg : Bool) (m : Nat) (q : Int) : IEEE f :=
  if m = 0 then fin neg 0 f.qmin
  else
    let q1 : Int := max (q + (bitLength m : Int) - (f.prec : Int)) f.qmin
    if q1 ≤ q then
      if f.qmax < q1 then inf neg else fin neg (m * 2 ^ (q - q1).toNat) q1
    else
      let k : Nat := (q1 - q).toNat
      let quo : Nat := m / 2 ^ k
      let rem : Nat := m % 2 ^ k
      let half : Nat := 2 ^ (k - 1)
      let m1 : Nat := if half < rem ∨ (rem = half ∧ quo % 2 = 1) then quo + 1 else quo
      let m2 : Nat := if m1 = 2 ^ f.prec then 2 ^ (f.prec - 1) else m1
      let q2 : Int := if m1 = 2 ^ f.prec then q1 + 1 else q1
      if f.qmax < q2 then inf neg else fin neg m2 q2

/-- The integer `(-1)^neg * m`. -/
def signed (neg : Bool) (m : Nat) : Int := if neg then -(m : Int) else (m : Int)

/-- IEEE-754 addition.  NaN propagates and `inf + (-inf)` is NaN.  The sum
of two zeros is `-0` when both are negative and `+0` otherwise; a zero
operand otherwise contributes nothing; two non-zero finite operands are
aligned to the smaller exponent and added exactly, an exact zero sum being
`+0` and every other sum being rounded. -/
def add : IEEE f → IEEE f → IEEE f
  | nan, _ => nan
  | _, nan => nan
  | inf s, inf t => if s = t then inf s else nan
  | inf s, fin _ _ _ => inf s
  | fin _ _ _, inf t => inf t
  | fin s m q, fin t n r =>
      if n = 0 then
        if m = 0 then fin (s && t) 0 f.qmin else round f s m q
      else if m = 0 then round f t n r
      else
        let q0 : Int := min q r
        let c : Int := signed s (m * 2 ^ (q - q0).toNat) + signed t (n * 2 ^ (r - q0).toNat)
        if c = 0 then fin false 0 f.qmin
        else round f (decide (c < 0)) c.natAbs q0

/-- IEEE-754 multiplication.  NaN propagates, `0 * inf` is NaN, the sign is
the exclusive or of the signs, and a finite product is the rounding of the
exact product. -/
def mul : IEEE f → IEEE f → IEEE f
  | nan, _ => nan
  | _, nan => nan
  | inf s, inf t => inf (xor s t)
  | inf s, fin t n _ => if n = 0 then nan else inf (xor s t)
  | fin s m _, inf t => if m = 0 then nan else inf (xor s t)
  | fin s m q, fin t n r => round f (xor s t) (m * n) (q + r)

/-- The value `+0.0`. -/
instance instZero : Zero (IEEE f) := ⟨fin false 0 f.qmin⟩

/-- Addition of the format. -/
instance instAdd : Add (IEEE f) := ⟨add⟩

/-- Multiplication of the format. -/
instance instMul : Mul (IEEE f) := ⟨mul⟩

/-- The floating-point number an integer literal denotes. -/
def ofInt (f : FloatFormat) (v : Int) : IEEE f := round f (decide (v < 0)) v.natAbs 0

end IEEE

/-- C1: the enumeration `rindow_matlib_dtype` declares exactly 18 tags and
its integer encoding is a bijection onto 0..17 with the values listed in the
header (unknown=0, bool=1, int8..int64=2..5, uint8..uint64=6..9,
float8..float64=10..13, complex8..complex64=14..17): no two tags share a
code, every code lies in 0..17, every integer of 0..17 decodes to a tag
that encodes back to it, and nothing outside 0..17 decodes. -/
theorem dtype_encoding_bijection :
    rindow_matlib_dtype.enumerators.length = 18 ∧
    rindow_matlib_dtype.enumerators.Nodup ∧
    (∀ t : rindow_matlib_dtype, t ∈ rindow_matlib_dtype.enumerators) ∧
    rindow_matlib_dtype.enumerators.map rindow_matlib_dtype.toInt
      = [0, 1, 2, 3, 4, 5, 6, 7, 8, 9, 10, 11, 12, 13, 14, 15, 16, 17] ∧
    Function.Injective rindow_matlib_dtype.toInt ∧
    (∀ t : rindow_matlib_dtype, 0 ≤ t.toInt ∧ t.toInt ≤ 17) ∧
    (∀ k : Fin 18, ∃ t : rindow_matlib_dtype,
      rindow_matlib_dtype.ofInt (k.val : Int) = some t ∧ t.toInt = (k.val : Int)) ∧
    (∀ t : rindow_matlib_dtype, rindow_matlib_dtype.ofInt t.toInt = some t) ∧
    (∀ v : Int, rindow_matlib_dtype.ofInt v = none ↔ (v < 0 ∨ 17 < v)) := by
  refine ⟨rfl, by decide, ?_, rfl, ?_, ?_, ?_, ?_, ?_⟩
  · intro t; cases t <;> decide
  · intro s t h; cases s <;> cases t <;> first | rfl | exact absurd h (by decide)
  · intro t; cases t <;> decide
  · decide
  · intro t; cases t <;> rfl
  · intro v
    constructor
    · intro h
      by_contra hc
      have h0 : 0 ≤ v := by omega
      have h17 : v ≤ 17 := by omega
      interval_cases v <;> exact absurd h (by decide)
    · intro h
      simp only [rindow_matlib_dtype.ofInt, List.find?_eq_none]
      intro t _
      cases t <;> simp only [rindow_matlib_dtype.toInt, decide_eq_true_eq] <;> omega

/-- C2: every declared error code `RINDOW_MATLIB_E_*` has a strictly
negative integer value, the error codes are pairwise distinct, and none
equals `RINDOW_MATLIB_SUCCESS` (0); hence every status value `v` (the
success code or a declared error code) is the success code if and only if
it is not a declared error code, and it is an error exactly when `v < 0`. -/
theorem error_codes_negative_distinct (v : Int) (hv : v ∈ statusCodes) :
    constValue RINDOW_MATLIB_SUCCESS.body = some 0 ∧
    (∀ d ∈ errorDefines, ∃ e : Int, constValue d.body = some e ∧ e < 0) ∧
    errorCodes.length = errorDefines.length ∧
    (∀ e ∈ errorCodes, e < 0) ∧
    errorCodes.Nodup ∧
    (0 : Int) ∉ errorCodes ∧
    (v = 0 ↔ v ∉ errorCodes) ∧
    (v ∈ errorCodes ↔ v < 0) := by
  have hcodes : errorCodes = [-101, -102, -103, -104, -105, -106, -107, -108, -109] := by
    decide
  have hstat : statusCodes = [0, -101, -102, -103, -104, -105, -106, -107, -108, -109] := by
    decide
  refine ⟨rfl, by decide, by decide, by decide, by decide, by decide, ?_, ?_⟩
  · rw [hstat] at hv
    rw [hcodes]
    simp only [List.mem_cons, List.mem_singleton, List.not_mem_nil, or_false] at hv ⊢
    omega
  · rw [hstat] at hv
    rw [hcodes]
    simp only [List.mem_cons, List.mem_singleton, List.not_mem_nil, or_false] at hv ⊢
    omega

/-- Witness of C2 at the status value -104 (unsupported data type). -/
theorem error_codes_negative_distinct_witness :
    (-104 : Int) ∈ statusCodes ∧
    (((-104 : Int) = 0 ↔ (-104 : Int) ∉ errorCodes) ∧
     ((-104 : Int) ∈ errorCodes ↔ (-104 : Int) < 0)) :=
  ⟨by decide,
   (error_codes_negative_distinct (-104) (by decide)).2.2.2.2.2.2⟩

/-- C3: the enumeration `RINDOW_MATLIB_TRANSPOSE` has exactly four states,
declared in the order no-transpose, transpose, conjugate-transpose,
conjugate-no-transpose, with the pairwise distinct codes 111, 112, 113, 114;
an integer is the code of a transpose mode exactly when it lies in
111..114, and every other integer decodes to no mode. -/
theorem transpose_modes_are_111_to_114 :
    RINDOW_MATLIB_TRANSPOSE.enumerators.length = 4 ∧
    RINDOW_MATLIB_TRANSPOSE.enumerators.Nodup ∧
    (∀ t : RINDOW_MATLIB_TRANSPOSE, t ∈ RINDOW_MATLIB_TRANSPOSE.enumerators) ∧
    RINDOW_MATLIB_TRANSPOSE.enumerators
      = [ RINDOW_MATLIB_TRANSPOSE.RINDOW_MATLIB_NO_TRANS,
          RINDOW_MATLIB_TRANSPOSE.RINDOW_MATLIB_TRANS,
          RINDOW_MATLIB_TRANSPOSE.RINDOW_MATLIB_CONJ_TRANSTrans,
          RINDOW_MATLIB_TRANSPOSE.RINDOW_MATLIB_CONJ_NO_TRANSNoTrans ] ∧
    RINDOW_MATLIB_TRANSPOSE.enumerators.map RINDOW_MATLIB_TRANSPOSE.toInt
      = [111, 112, 113, 114] ∧
    Function.Injective RINDOW_MATLIB_TRANSPOSE.toInt ∧
    (∀ v : Int, (∃ t : RINDOW_MATLIB_TRANSPOSE, t.toInt = v) ↔ (111 ≤ v ∧ v ≤ 114)) ∧
    (∀ v : Int, RINDOW_MATLIB_TRANSPOSE.ofInt v = none ↔ (v < 111 ∨ 114 < v)) := by
  refine ⟨rfl, by decide, ?_, rfl, rfl, ?_, ?_, ?_⟩
  · intro t; cases t <;> decide
  · intro s t h; cases s <;> cases t <;> first | rfl | exact absurd h (by decide)
  · intro v
    constructor
    · rintro ⟨t, rfl⟩; cases t <;> decide
    · rintro ⟨h1, h2⟩
      interval_cases v
      · exact ⟨.RINDOW_MATLIB_NO_TRANS, rfl⟩
      · exact ⟨.RINDOW_MATLIB_TRANS, rfl⟩
      · exact ⟨.RINDOW_MATLIB_CONJ_TRANSTrans, rfl⟩
      · exact ⟨.RINDOW_MATLIB_CONJ_NO_TRANSNoTrans, rfl⟩
  · intro v
    constructor
    · intro h
      by_contra hc
      have h0 : 111 ≤ v := by omega
      have h1 : v ≤ 114 := by omega
      interval_cases v <;> exact absurd h (by decide)
    · intro h
      simp only [RINDOW_MATLIB_TRANSPOSE.ofInt, List.find?_eq_none]
      intro t _
      cases t <;> simp only [RINDOW_MATLIB_TRANSPOSE.toInt, decide_eq_true_eq] <;> omega

/-- C4 (evaluation of the header): the replacement lists of
`MATLIB_SEQUENTIAL`, `MATLIB_THREAD`, `MATLIB_OPENMP` are the integer
constants 0, 1, 2, while the replacement lists of `RINDOW_MATLIB_SEQUENTIAL`,
`RINDOW_MATLIB_THREAD`, `RINDOW_MATLIB_OPENMP` are those constants followed
by a semicolon token and therefore are not integer constants. -/
theorem rindow_mode_defines_end_with_semicolon :
    constValue MATLIB_SEQUENTIAL.body = some 0 ∧
    constValue MATLIB_THREAD.body = some 1 ∧
    constValue MATLIB_OPENMP.body = some 2 ∧
    RINDOW_MATLIB_SEQUENTIAL.body = MATLIB_SEQUENTIAL.body ++ [Tok.semi] ∧
    RINDOW_MATLIB_THREAD.body = MATLIB_THREAD.body ++ [Tok.semi] ∧
    RINDOW_MATLIB_OPENMP.body = MATLIB_OPENMP.body ++ [Tok.semi] ∧
    constValue RINDOW_MATLIB_SEQUENTIAL.body = none ∧
    constValue RINDOW_MATLIB_THREAD.body = none ∧
    constValue RINDOW_MATLIB_OPENMP.body = none :=
  ⟨rfl, rfl, rfl, rfl, rfl, rfl, rfl, rfl, rfl⟩

/-- C10: the header declares exactly nine error codes, whose values are
-101 through -109 with no gap, and exactly four of them concern
image/column buffers: `UNMATCH_IMAGE_BUFFER_SIZE` (-105),
`UNMATCH_COLS_BUFFER_SIZE` (-106), `IMAGES_OUT_OF_RANGE` (-108) and
`COLS_OUT_OF_RANGE` (-109). -/
theorem nine_error_codes_four_image_cols :
    errorDefines.length = 9 ∧
    errorDefines.map (fun d => constValue d.body)
      = [some (-101), some (-102), some (-103), some (-104), some (-105),
         some (-106), some (-107), some (-108), some (-109)] ∧
    (∀ v : Int, v ∈ errorCodes ↔ (-109 ≤ v ∧ v ≤ -101)) ∧
    (errorDefines.filter concernsImageOrCols).length = 4 ∧
    (errorDefines.filter concernsImageOrCols).map (fun d => (d.name, constValue d.body))
      = [ ("RINDOW_MATLIB_E_UNMATCH_IMAGE_BUFFER_SIZE", some (-105)),
          ("RINDOW_MATLIB_E_UNMATCH_COLS_BUFFER_SIZE", some (-106)),
          ("RINDOW_MATLIB_E_IMAGES_OUT_OF_RANGE", some (-108)),
          ("RINDOW_MATLIB_E_COLS_OUT_OF_RANGE", some (-109)) ] := by
  have hcodes : errorCodes = [-101, -102, -103, -104, -105, -106, -107, -108, -109] := by
    decide
  refine ⟨by decide, by decide, ?_, by decide, by decide⟩
  intro v
  rw [hcodes]
  simp only [List.mem_cons, List.mem_singleton, List.not_mem_nil, or_false]
  omega

/-! ## Lemmas about the kernel loops -/

section KernelLemmas

variable {α : Type}

theorem addRow_succ [Add α] (f : Nat → α) (base : Int) (c : Nat) (a : Int → α) :
    addRow f base (c + 1) a
      = Function.update (addRow f base c a) (base + (c : Int))
          (addRow f base c a (base + (c : Int)) + f c) := by
  simp [addRow, List.range_succ, List.foldl_append]

theorem addRow_miss [Add α] (f : Nat → α) (base : Int) (cols : Nat) (a : Int → α)
    (p : Int) (hp : ∀ j : Nat, j < cols → p ≠ base + (j : Int)) :
    addRow f base cols a p = a p := by
  induction cols with
  | zero => simp [addRow]
  | succ c ih =>
    rw [addRow_succ, Function.update_noteq (hp c (Nat.lt_succ_self c))]
    exact ih (fun j hj => hp j (Nat.lt_succ_of_lt hj))

theorem addRow_hit [Add α] (f : Nat → α) (base : Int) (cols : Nat) (a : Int → α)
    (j : Nat) (hj : j < cols) :
    addRow f base cols a (base + (j : Int)) = a (base + (j : Int)) + f j := by
  induction cols with
  | zero => exact absurd hj (Nat.not_lt_zero j)
  | succ c ih =>
    rw [addRow_succ]
    rcases Nat.lt_succ_iff_lt_or_eq.mp hj with h | h
    · have hne : base + (j : Int) ≠ base + (c : Int) := by omega
      rw [Function.update_noteq hne]
      exact ih h
    · subst h
      rw [Function.update_same]
      congr 1
      apply addRow_miss
      intro k hk
      omega

theorem addLoop_succ [Add α] (f : Nat → Nat → α) (ldA : Int) (r cols : Nat)
    (a : Int → α) :
    addLoop f ldA (r + 1) cols a
      = addRow (f r) ((r : Int) * ldA) cols (addLoop f ldA r cols a) := by
  simp [addLoop, List.range_succ, List.foldl_append]

theorem addLoop_miss [Add α] (f : Nat → Nat → α) (ldA : Int) (rows cols : Nat)
    (a : Int → α) (p : Int)
    (hp : ∀ i : Nat, i < rows → ∀ j : Nat, j < cols → p ≠ (i : Int) * ldA + (j : Int)) :
    addLoop f ldA rows cols a p = a p := by
  induction rows with
  | zero => simp [addLoop]
  | succ r ih =>
    rw [addLoop_succ, addRow_miss _ _ _ _ _ (hp r (Nat.lt_succ_self r))]
    exact ih (fun i hi => hp i (Nat.lt_succ_of_lt hi))

/-- Distinct rows of a matrix whose leading dimension is at least its row
length occupy disjoint offsets. -/
theorem row_offsets_disjoint (ldA : Int) (cols i r j k : Nat) (hld : (cols : Int) ≤ ldA)
    (hir : i < r) (hk : k < cols) :
    (i : Int) * ldA + (k : Int) ≠ (r : Int) * ldA + (j : Int) := by
  have h1 : ((i : Int) + 1) * ldA ≤ (r : Int) * ldA := by
    apply mul_le_mul_of_nonneg_right
    · exact_mod_cast hir
    · omega
  have h2 : ((i : Int) + 1) * ldA = (i : Int) * ldA + ldA := by ring
  omega

theorem addLoop_hit [Add α] (f : Nat → Nat → α) (ldA : Int) (rows cols : Nat)
    (a : Int → α) (hld : (cols : Int) ≤ ldA) (i j : Nat) (hi : i < rows) (hj : j < cols) :
    addLoop f ldA rows cols a ((i : Int) * ldA + (j : Int))
      = a ((i : Int) * ldA + (j : Int)) + f i j := by
  induction rows with
  | zero => exact absurd hi (Nat.not_lt_zero i)
  | succ r ih =>
    rw [addLoop_succ]
    rcases Nat.lt_succ_iff_lt_or_eq.mp hi with h | h
    · rw [addRow_miss]
      · exact ih h
      · intro k hk
        exact row_offsets_disjoint ldA cols i r k j hld h hj
    · subst h
      rw [addRow_hit _ _ _ _ _ hj]
      congr 1
      apply addLoop_miss
      intro i2 hi2 k hk
      exact (row_offsets_disjoint ldA cols i2 i j k hld hi2 hk).symm

end KernelLemmas

/-! ## Lemmas about the IEEE-754 model and the `alpha = 0` case -/

section ZeroAlphaLemmas

variable {α : Type}

end ZeroAlphaLemmas

/-! ## Theorems about the numeric kernels -/

section KernelTheorems

variable {α : Type}

theorem s_add_no_trans [Add α] [Mul α] (m n : Nat) (alpha : α) (x a : Int → α)
    (incX ldA : Int) :
    rindow_matlib_s_add 111 (m : Int) (n : Int) alpha x incX a ldA
      = addLoop (fun _ j => alpha * x ((j : Int) * incX)) ldA m n a := by
  show addLoop _ ldA (m : Int).toNat (n : Int).toNat a = _
  rw [Int.toNat_ofNat, Int.toNat_ofNat]

theorem d_add_no_trans [Add α] [Mul α] (m n : Nat) (alpha : α) (x a : Int → α)
    (incX ldA : Int) :
    rindow_matlib_d_add 111 (m : Int) (n : Int) alpha x incX a ldA
      = addLoop (fun _ j => alpha * x ((j : Int) * incX)) ldA m n a := by
  show addLoop _ ldA (m : Int).toNat (n : Int).toNat a = _
  rw [Int.toNat_ofNat, Int.toNat_ofNat]

theorem s_add_trans [Add α] [Mul α] (m n : Nat) (alpha : α) (x a : Int → α)
    (incX ldA : Int) :
    rindow_matlib_s_add 112 (m : Int) (n : Int) alpha x incX a ldA
      = addLoop (fun i _ => alpha * x ((i : Int) * incX)) ldA m n a := by
  show addLoop _ ldA (m : Int).toNat (n : Int).toNat a = _
  rw [Int.toNat_ofNat, Int.toNat_ofNat]

theorem d_add_trans [Add α] [Mul α] (m n : Nat) (alpha : α) (x a : Int → α)
    (incX ldA : Int) :
    rindow_matlib_d_add 112 (m : Int) (n : Int) alpha x incX a ldA
      = addLoop (fun i _ => alpha * x ((i : Int) * incX)) ldA m n a := by
  show addLoop _ ldA (m : Int).toNat (n : Int).toNat a = _
  rw [Int.toNat_ofNat, Int.toNat_ofNat]

/-- C6: for `n = 0`, `rindow_matlib_s_sum` and `rindow_matlib_d_sum` return
0 for every buffer `x` and every stride `incX`. -/
theorem sum_of_zero_elements_is_zero [Zero α] [Add α] (x : Int → α) (incX : Int) :
    rindow_matlib_s_sum 0 x incX = 0 ∧ rindow_matlib_d_sum 0 x incX = 0 :=
  ⟨rfl, rfl⟩

/-- C7: in no-transpose mode (`trans = 111`) on an `m` x `n` matrix `a`
with leading dimension `ldA >= n`, `rindow_matlib_s_add` and
`rindow_matlib_d_add` add `alpha * x[j*incX]` to `a[i*ldA + j]` for every
row `i < m` and column `j < n` and leave every other offset of the buffer as
it was; for `m = 1` (any leading dimension, unit stride) the call is the
vector add `a[0..n) += alpha * x[0..n)`; and `m = 2`, `n = 2`, `alpha = 2`,
`x = [1,1]`, `a` all zero gives `a = [[2,2],[2,2]]`. -/
theorem add_no_trans_adds_x_to_every_row [Add α] [Mul α] (m n : Nat) (alpha : α)
    (x a : Int → α) (incX ldA : Int) (hld : (n : Int) ≤ ldA) :
    (∀ i : Nat, i < m → ∀ j : Nat, j < n →
      rindow_matlib_s_add 111 (m : Int) (n : Int) alpha x incX a ldA ((i : Int) * ldA + (j : Int))
        = a ((i : Int) * ldA + (j : Int)) + alpha * x ((j : Int) * incX) ∧
      rindow_matlib_d_add 111 (m : Int) (n : Int) alpha x incX a ldA ((i : Int) * ldA + (j : Int))
        = a ((i : Int) * ldA + (j : Int)) + alpha * x ((j : Int) * incX)) ∧
    (∀ p : Int, (∀ i : Nat, i < m → ∀ j : Nat, j < n → p ≠ (i : Int) * ldA + (j : Int)) →
      rindow_matlib_s_add 111 (m : Int) (n : Int) alpha x incX a ldA p = a p ∧
      rindow_matlib_d_add 111 (m : Int) (n : Int) alpha x incX a ldA p = a p) ∧
    (∀ ld : Int, ∀ j : Nat, j < n →
      rindow_matlib_s_add 111 1 (n : Int) alpha x 1 a ld (j : Int) = a (j : Int) + alpha * x (j : Int) ∧
      rindow_matlib_d_add 111 1 (n : Int) alpha x 1 a ld (j : Int) = a (j : Int) + alpha * x (j : Int)) ∧
    (∀ ld : Int, ∀ p : Int, (p < 0 ∨ (n : Int) ≤ p) →
      rindow_matlib_s_add 111 1 (n : Int) alpha x 1 a ld p = a p ∧
      rindow_matlib_d_add 111 1 (n : Int) alpha x 1 a ld p = a p) ∧
    (List.range 4).map (fun k : Nat =>
        rindow_matlib_s_add 111 2 2 (2 : Int) (bufferOf [1, 1]) 1 (bufferOf [0, 0, 0, 0]) 2 (k : Int))
      = [2, 2, 2, 2] ∧
    (List.range 4).map (fun k : Nat =>
        rindow_matlib_d_add 111 2 2 (2 : Int) (bufferOf [1, 1]) 1 (bufferOf [0, 0, 0, 0]) 2 (k : Int))
      = [2, 2, 2, 2] := by
  have hrow : ∀ ld : Int,
      addLoop (fun _ (j : Nat) => alpha * x ((j : Int) * 1)) ld 1 n a
        = addRow (fun j : Nat => alpha * x ((j : Int) * 1)) 0 n a := by
    intro ld
    rw [addLoop_succ]
    have h0 : addLoop (fun _ (j : Nat) => alpha * x ((j : Int) * 1)) ld 0 n a = a := rfl
    rw [h0]
    simp
  have hone : ∀ ld : Int, ∀ q : Int,
      rindow_matlib_s_add 111 1 (n : Int) alpha x 1 a ld q
        = addRow (fun j : Nat => alpha * x ((j : Int) * 1)) 0 n a q ∧
      rindow_matlib_d_add 111 1 (n : Int) alpha x 1 a ld q
        = addRow (fun j : Nat => alpha * x ((j : Int) * 1)) 0 n a q := by
    intro ld q
    have hs := s_add_no_trans 1 n alpha x a 1 ld
    have hd := d_add_no_trans 1 n alpha x a 1 ld
    rw [Nat.cast_one] at hs hd
    rw [hs, hd, hrow]
    exact ⟨rfl, rfl⟩
  refine ⟨?_, ?_, ?_, ?_, by decide, by decide⟩
  · intro i hi j hj
    rw [s_add_no_trans, d_add_no_trans]
    exact ⟨addLoop_hit _ ldA m n a hld i j hi hj, addLoop_hit _ ldA m n a hld i j hi hj⟩
  · intro p hp
    rw [s_add_no_trans, d_add_no_trans]
    exact ⟨addLoop_miss _ ldA m n a p hp, addLoop_miss _ ldA m n a p hp⟩
  · intro ld j hj
    rw [(hone ld (j : Int)).1, (hone ld (j : Int)).2]
    have h := addRow_hit (fun j : Nat => alpha * x ((j : Int) * 1)) 0 n a j hj
    rw [zero_add] at h
    have h2 : addRow (fun j : Nat => alpha * x ((j : Int) * 1)) 0 n a (j : Int)
        = a (j : Int) + alpha * x (j : Int) := by
      rw [h]
      show a (j : Int) + alpha * x ((j : Int) * 1) = _
      rw [mul_one]
    exact ⟨h2, h2⟩
  · intro ld p hp
    rw [(hone ld p).1, (hone ld p).2]
    have h := addRow_miss (fun j : Nat => alpha * x ((j : Int) * 1)) 0 n a p
      (by intro j hj; omega)
    exact ⟨h, h⟩

/-- Witness of C7: a 2 x 3 matrix stored with leading dimension 4 and a
vector read at stride 2. -/
theorem add_no_trans_adds_x_to_every_row_witness :
    ((3 : Nat) : Int) ≤ 4 ∧
    (∀ i : Nat, i < 2 → ∀ j : Nat, j < 3 →
      rindow_matlib_s_add 111 ((2 : Nat) : Int) ((3 : Nat) : Int) (5 : Int)
          (bufferOf [1, 0, 2, 0, 3]) 2 (bufferOf [10, 20, 30, 40, 50, 60, 70, 80]) 4
          ((i : Int) * 4 + (j : Int))
        = bufferOf [10, 20, 30, 40, 50, 60, 70, 80] ((i : Int) * 4 + (j : Int))
            + 5 * bufferOf [1, 0, 2, 0, 3] ((j : Int) * 2) ∧
      rindow_matlib_d_add 111 ((2 : Nat) : Int) ((3 : Nat) : Int) (5 : Int)
          (bufferOf [1, 0, 2, 0, 3]) 2 (bufferOf [10, 20, 30, 40, 50, 60, 70, 80]) 4
          ((i : Int) * 4 + (j : Int))
        = bufferOf [10, 20, 30, 40, 50, 60, 70, 80] ((i : Int) * 4 + (j : Int))
            + 5 * bufferOf [1, 0, 2, 0, 3] ((j : Int) * 2)) ∧
    (List.range 8).map (fun k : Nat =>
        rindow_matlib_s_add 111 2 3 (5 : Int) (bufferOf [1, 0, 2, 0, 3]) 2
          (bufferOf [10, 20, 30, 40, 50, 60, 70, 80]) 4 (k : Int))
      = [15, 30, 45, 40, 55, 70, 85, 80] :=
  ⟨by decide,
   (add_no_trans_adds_x_to_every_row 2 3 (5 : Int) (bufferOf [1, 0, 2, 0, 3])
      (bufferOf [10, 20, 30, 40, 50, 60, 70, 80]) 2 4 (by decide)).1,
   by decide⟩

/-- C9: dimension-swap symmetry of `add`.  Let `a` be an `m` x `n` matrix
(leading dimension `ldA >= n`) and `b` its transpose, an `n` x `m` matrix
(leading dimension `ldB >= m`, `b[j][i] = a[i][j]`).  Running
`rindow_matlib_s_add` / `rindow_matlib_d_add` in transpose mode
(`trans = 112`) on `a` yields the transpose of the result of running it in
no-transpose mode (`trans = 111`) on `b` with the same `alpha` and `x`. -/
theorem add_trans_is_no_trans_on_transpose [Add α] [Mul α] (m n : Nat) (alpha : α)
    (x a b : Int → α) (incX ldA ldB : Int)
    (hldA : (n : Int) ≤ ldA) (hldB : (m : Int) ≤ ldB)
    (hT : ∀ i : Nat, i < m → ∀ j : Nat, j < n →
      b ((j : Int) * ldB + (i : Int)) = a ((i : Int) * ldA + (j : Int))) :
    ∀ i : Nat, i < m → ∀ j : Nat, j < n →
      rindow_matlib_s_add 112 (m : Int) (n : Int) alpha x incX a ldA ((i : Int) * ldA + (j : Int))
        = rindow_matlib_s_add 111 (n : Int) (m : Int) alpha x incX b ldB
            ((j : Int) * ldB + (i : Int)) ∧
      rindow_matlib_d_add 112 (m : Int) (n : Int) alpha x incX a ldA ((i : Int) * ldA + (j : Int))
        = rindow_matlib_d_add 111 (n : Int) (m : Int) alpha x incX b ldB
            ((j : Int) * ldB + (i : Int)) := by
  intro i hi j hj
  rw [s_add_trans, s_add_no_trans, d_add_trans, d_add_no_trans,
    addLoop_hit _ ldA m n a hldA i j hi hj, addLoop_hit _ ldB n m b hldB j i hj hi,
    hT i hi j hj]
  exact ⟨rfl, rfl⟩

/-- Witness of C9: a 2 x 3 matrix and its 3 x 2 transpose. -/
theorem add_trans_is_no_trans_on_transpose_witness :
    ((3 : Nat) : Int) ≤ 3 ∧ ((2 : Nat) : Int) ≤ 2 ∧
    (∀ i : Nat, i < 2 → ∀ j : Nat, j < 3 →
      bufferOf [1, 4, 2, 5, 3, 6] ((j : Int) * 2 + (i : Int))
        = bufferOf [1, 2, 3, 4, 5, 6] ((i : Int) * 3 + (j : Int))) ∧
    (∀ i : Nat, i < 2 → ∀ j : Nat, j < 3 →
      rindow_matlib_s_add 112 ((2 : Nat) : Int) ((3 : Nat) : Int) (7 : Int)
          (bufferOf [10, 20]) 1 (bufferOf [1, 2, 3, 4, 5, 6]) 3 ((i : Int) * 3 + (j : Int))
        = rindow_matlib_s_add 111 ((3 : Nat) : Int) ((2 : Nat) : Int) (7 : Int)
            (bufferOf [10, 20]) 1 (bufferOf [1, 4, 2, 5, 3, 6]) 2 ((j : Int) * 2 + (i : Int)) ∧
      rindow_matlib_d_add 112 ((2 : Nat) : Int) ((3 : Nat) : Int) (7 : Int)
          (bufferOf [10, 20]) 1 (bufferOf [1, 2, 3, 4, 5, 6]) 3 ((i : Int) * 3 + (j : Int))
        = rindow_matlib_d_add 111 ((3 : Nat) : Int) ((2 : Nat) : Int) (7 : Int)
            (bufferOf [10, 20]) 1 (bufferOf [1, 4, 2, 5, 3, 6]) 2 ((j : Int) * 2 + (i : Int))) ∧
    (List.range 6).map (fun k : Nat =>
        rindow_matlib_s_add 112 2 3 (7 : Int) (bufferOf [10, 20]) 1
          (bufferOf [1, 2, 3, 4, 5, 6]) 3 (k : Int))
      = [71, 72, 73, 144, 145, 146] ∧
    (List.range 6).map (fun k : Nat =>
        rindow_matlib_s_add 111 3 2 (7 : Int) (bufferOf [10, 20]) 1
          (bufferOf [1, 4, 2, 5, 3, 6]) 2 (k : Int))
      = [71, 144, 72, 145, 73, 146] :=
  ⟨by decide, by decide, by decide,
   add_trans_is_no_trans_on_transpose 2 3 (7 : Int) (bufferOf [10, 20])
     (bufferOf [1, 2, 3, 4, 5, 6]) (bufferOf [1, 4, 2, 5, 3, 6]) 1 3 2
     (by decide) (by decide) (by decide),
   by decide, by decide⟩

end KernelTheorems

end Matlib
